import Mathlib

/-!
Verification of the schema/default-filling glue logic of the
StudentMLProject repository (`src/train_model.py`, `src/app.py`).

Cell values in a pandas row are either strings (categorical levels) or
numbers; sliders and the numeric defaults are integers, so a cell is
modelled as a string or an integer.  The raw regressor output is a real
number, modelled as a rational.
-/

namespace StudentML

/-- A cell value of a feature row: a categorical string or a numeric value. -/
inductive Val where
  | str (s : String)
  | num (n : ℤ)
deriving DecidableEq, Repr

/-- `required_cols` from `src/app.py` lines 56-63: the ordered column schema
the app presents to the fitted pipeline (note that it ends with `G3`). -/
def required_cols : List String :=
  ["school", "sex", "age", "address", "famsize", "Pstatus",
   "Medu", "Fedu", "Mjob", "Fjob", "reason", "guardian",
   "traveltime", "studytime", "failures", "schoolsup",
   "famsup", "paid", "activities", "nursery", "higher",
   "internet", "romantic", "famrel", "freetime", "goout",
   "Dalc", "Walc", "health", "absences", "G1", "G2", "G3"]

/-- `defaults` from `src/app.py` lines 65-93: the default value for every
schema column not collected from the user. -/
def defaults : List (String × Val) :=
  [("address", .str "U"),
   ("famsize", .str "GT3"),
   ("Pstatus", .str "T"),
   ("Medu", .num 2),
   ("Fedu", .num 2),
   ("Mjob", .str "other"),
   ("Fjob", .str "other"),
   ("reason", .str "course"),
   ("guardian", .str "mother"),
   ("traveltime", .num 1),
   ("schoolsup", .str "no"),
   ("famsup", .str "no"),
   ("paid", .str "no"),
   ("activities", .str "no"),
   ("nursery", .str "yes"),
   ("higher", .str "yes"),
   ("internet", .str "yes"),
   ("romantic", .str "no"),
   ("famrel", .num 3),
   ("freetime", .num 3),
   ("goout", .num 3),
   ("Dalc", .num 1),
   ("Walc", .num 1),
   ("health", .num 3),
   ("G1", .num 10),
   ("G2", .num 10),
   ("G3", .num 10)]

/-- `categorical_cols` from `src/train_model.py` lines 17-21: the columns
one-hot encoded by the trainer's `ColumnTransformer`. -/
def categorical_cols : List String :=
  ["school", "sex", "address", "famsize", "Pstatus", "Mjob", "Fjob",
   "reason", "guardian", "schoolsup", "famsup", "paid", "activities",
   "nursery", "higher", "internet", "romantic"]

/-- The six fields collected interactively from the user
(`src/app.py` lines 44-51 and the `input_df` literal at lines 107-114). -/
def sixUserFields : List String :=
  ["school", "sex", "age", "studytime", "failures", "absences"]

/-- Modelled from the spec: the header row of the training dataset
`data/student-por.csv` (the file itself is not part of the sources).  Per
spec section 6 the header matches the named schema columns of section 3,
i.e. the columns of `required_cols` in that order, ending with the target
`G3`. -/
def datasetColumns : List String := required_cols

/-- `X = df.drop(columns=["G3"])` from `src/train_model.py` line 14:
the training feature columns are the dataset columns with `G3` removed,
order preserved. -/
def trainingFeatureCols : List String :=
  datasetColumns.filter (fun c => c ≠ "G3")

/-- The six user-collected form values (`src/app.py` lines 44-51). -/
structure UserInput where
  school : String
  sex : String
  age : ℤ
  studytime : ℤ
  failures : ℤ
  absences : ℤ
deriving DecidableEq, Repr

/-- The input ranges enforced by the form widgets
(`st.selectbox`/`st.slider`, `src/app.py` lines 44-51). -/
def ValidInput (u : UserInput) : Prop :=
  (u.school = "GP" ∨ u.school = "MS") ∧
  (u.sex = "F" ∨ u.sex = "M") ∧
  15 ≤ u.age ∧ u.age ≤ 22 ∧
  1 ≤ u.studytime ∧ u.studytime ≤ 4 ∧
  0 ≤ u.failures ∧ u.failures ≤ 4 ∧
  0 ≤ u.absences ∧ u.absences ≤ 50

/-- The single-row DataFrame literal built from the six user fields
(`src/app.py` lines 107-114), as an ordered association list. -/
def userPairs (u : UserInput) : List (String × Val) :=
  [("school", .str u.school),
   ("sex", .str u.sex),
   ("age", .num u.age),
   ("studytime", .num u.studytime),
   ("failures", .num u.failures),
   ("absences", .num u.absences)]

/-- The default-filling loop of `src/app.py` lines 116-118:
`for col in required_cols: if col not in input_df: input_df[col] = defaults[col]`.
A column already present is left untouched; a missing column is appended
with its default; a missing default (Python `KeyError`) yields `none`. -/
def fillMissing : List String → List (String × Val) → Option (List (String × Val))
  | [], df => some df
  | c :: cs, df =>
    if (df.lookup c).isSome then
      fillMissing cs df
    else
      match defaults.lookup c with
      | some v => fillMissing cs (df ++ [(c, v)])
      | none => none

/-- The column reindexing `input_df = input_df[required_cols]` of
`src/app.py` line 120: select the named columns in the given order;
a missing column (Python `KeyError`) yields `none`. -/
def selectCols : List String → List (String × Val) → Option (List (String × Val))
  | [], _ => some []
  | c :: cs, df =>
    match df.lookup c with
    | some v => (selectCols cs df).map (fun r => (c, v) :: r)
    | none => none

/-- Feature Row construction (`src/app.py` lines 107-120): the user pairs,
default-filled over `required_cols`, then reindexed to `required_cols`. -/
def buildFeatureRow (user : List (String × Val)) : Option (List (String × Val)) :=
  (fillMissing required_cols user).bind (selectCols required_cols)

/-- Python 3 `round` to the nearest integer: round half to even. -/
def roundHalfEven (q : ℚ) : ℤ :=
  if q - ⌊q⌋ < 1 / 2 then ⌊q⌋
  else if q - ⌊q⌋ > 1 / 2 then ⌊q⌋ + 1
  else if Even ⌊q⌋ then ⌊q⌋ else ⌊q⌋ + 1

/-- Python `round(x, 2)` (`src/app.py` line 124): round to 2 decimal places. -/
def pythonRound2 (q : ℚ) : ℚ :=
  (roundHalfEven (100 * q) : ℚ) / 100

/-- The loaded Trained Pipeline Artifact (`src/app.py` lines 19-21):
the fitted preprocessor's `transform` and the fitted regressor's `predict`,
consumed as black-box deterministic functions per the spec, plus the
regressor's intrinsic feature importances read by the global view. -/
structure Artifact where
  transform : List (String × Val) → List ℚ
  regPredict : List ℚ → ℚ
  featureNamesOut : List String
  featureImportances : List ℚ

/-- The inference chain of `src/app.py` lines 122-124:
transform, predict, round to 2 decimals, clamp into [0, 20] via
`max(0, min(20, round(prediction, 2)))`. -/
def predictChain (a : Artifact) (row : List (String × Val)) : ℚ :=
  max 0 (min 20 (pythonRound2 (a.regPredict (a.transform row))))

/-- The whole prediction request (`src/app.py` lines 105-124): build the
Feature Row from the user fields, then run the inference chain on it. -/
def appPredict (a : Artifact) (user : List (String × Val)) : Option ℚ :=
  (buildFeatureRow user).map (predictChain a)

/-- The `handle_unknown` option of the one-hot encoder. -/
inductive HandleUnknown where
  | errorOut
  | ignore
deriving DecidableEq, Repr

/-- The trainer's preprocessor configuration (`src/train_model.py`
lines 24-29): `OneHotEncoder(handle_unknown="ignore")` over
`categorical_cols`, remainder passed through. -/
structure PreprocessConfig where
  handleUnknown : HandleUnknown
  categoricalCols : List String
deriving Repr

def preprocessConfig : PreprocessConfig :=
  { handleUnknown := .ignore, categoricalCols := categorical_cols }

/-- Modelled from the spec: the external one-hot encoder's `transform` of a
single cell (the encoder implementation lives in the scikit-learn library,
outside this repository).  A level among the fitted categories yields its
indicator vector; an unseen level yields all zeros under
`handle_unknown="ignore"` and an error otherwise. -/
def oneHotEncodeCell (hu : HandleUnknown) (cats : List String) (v : String) :
    Option (List ℚ) :=
  if v ∈ cats then
    some (cats.map (fun c => if c = v then 1 else 0))
  else
    match hu with
    | .ignore => some (cats.map (fun _ => 0))
    | .errorOut => none

/-- The retained Streamlit session state (`src/app.py` lines 126-127):
`st.session_state["input_df"]` and `st.session_state["prediction"]`. -/
structure SessionState where
  input_df : Option (List (String × Val))
  prediction : Option ℚ
deriving DecidableEq

/-- Session state before any prediction request. -/
def initialSession : SessionState := { input_df := none, prediction := none }

/-- One prediction request (`src/app.py` lines 105-127): on success both
session keys are assigned (overwritten); on failure the script aborts and
the state is left unchanged. -/
def predictRequest (a : Artifact) (user : List (String × Val))
    (s : SessionState) : SessionState :=
  match buildFeatureRow user with
  | some row => { input_df := some row, prediction := some (predictChain a row) }
  | none => s

/-- A session: a sequence of prediction requests applied in order. -/
def runRequests (a : Artifact) (users : List (List (String × Val)))
    (s : SessionState) : SessionState :=
  users.foldl (fun st u => predictRequest a u st) s

/-- The Feature Row the local-attribution view (tab 1) reads from session
state (`src/app.py` line 145: `preprocess.transform(st.session_state["input_df"])`). -/
def tab1RowSource (s : SessionState) : Option (List (String × Val)) :=
  s.input_df

/-- The Feature Row the global-importance view (tab 2) reads from session
state: `src/app.py` lines 185-220 touch only `preprocess.get_feature_names_out()`
and `regressor.feature_importances_`, no row at all. -/
def tab2RowSource (_ : SessionState) : Option (List (String × Val)) :=
  none

/-- The output of the global-importance view (tab 2), `src/app.py`
lines 188-193: the (feature name, importance) pairs sorted descending and
truncated to 10.  It depends only on the loaded artifact. -/
def tab2Output (a : Artifact) : List (String × ℚ) :=
  ((a.featureNamesOut.zip a.featureImportances).mergeSort
    (fun p q => decide (q.2 ≤ p.2))).take 10

/-- Descending comparison on the absolute SHAP value, i.e. pandas
`sort_values("Impact", ascending=False)` with `Impact = |SHAP Value|`
(`src/app.py` lines 154-157). -/
def impactGE (p q : String × ℚ) : Bool :=
  decide (|q.2| ≤ |p.2|)

/-- `top_shap` from `src/app.py` lines 149-157: the (feature, signed SHAP
value) pairs sorted by descending absolute value, truncated to 10. -/
def top_shap (shapPairs : List (String × ℚ)) : List (String × ℚ) :=
  (shapPairs.mergeSort impactGE).take 10

/-- A comparison definition following the claim's contrasted reading:
selecting the top 10 by descending signed SHAP value instead of by
magnitude. -/
def topBySignedSpec (shapPairs : List (String × ℚ)) : List (String × ℚ) :=
  (shapPairs.mergeSort (fun p q => decide (q.2 ≤ p.2))).take 10

/-- A concrete artifact used to instantiate theorems about the inference
chain on closed inputs. -/
def sampleArtifact : Artifact :=
  { transform := fun _ => []
    regPredict := fun _ => 10
    featureNamesOut := []
    featureImportances := [] }

/-- The valid user input of the spec's example scenario (section 8). -/
def sampleInput : UserInput :=
  { school := "GP", sex := "F", age := 17, studytime := 2,
    failures := 0, absences := 2 }

/-- The Feature Row the app builds from `sampleInput`: the six user values
overlaid on the defaults, in `required_cols` order. -/
def sampleRow : List (String × Val) :=
  [("school", .str "GP"), ("sex", .str "F"), ("age", .num 17),
   ("address", .str "U"), ("famsize", .str "GT3"), ("Pstatus", .str "T"),
   ("Medu", .num 2), ("Fedu", .num 2), ("Mjob", .str "other"),
   ("Fjob", .str "other"), ("reason", .str "course"),
   ("guardian", .str "mother"), ("traveltime", .num 1),
   ("studytime", .num 2), ("failures", .num 0), ("schoolsup", .str "no"),
   ("famsup", .str "no"), ("paid", .str "no"), ("activities", .str "no"),
   ("nursery", .str "yes"), ("higher", .str "yes"), ("internet", .str "yes"),
   ("romantic", .str "no"), ("famrel", .num 3), ("freetime", .num 3),
   ("goout", .num 3), ("Dalc", .num 1), ("Walc", .num 1),
   ("health", .num 3), ("absences", .num 2), ("G1", .num 10),
   ("G2", .num 10), ("G3", .num 10)]

/-! ### Association-list lookup lemmas -/

theorem lookup_append_of_isSome {l₁ l₂ : List (String × Val)} {a : String}
    (h : (l₁.lookup a).isSome) : (l₁ ++ l₂).lookup a = l₁.lookup a := by
  induction l₁ with
  | nil => simp [List.lookup] at h
  | cons p l ih =>
    rcases p with ⟨k, v⟩
    cases hk : a == k with
    | true => simp only [List.cons_append, List.lookup_cons, hk]
    | false =>
      simp only [List.lookup_cons, hk] at h
      simp only [List.cons_append, List.lookup_cons, hk]
      exact ih h

theorem lookup_append_of_none {l₁ l₂ : List (String × Val)} {a : String}
    (h : l₁.lookup a = none) : (l₁ ++ l₂).lookup a = l₂.lookup a := by
  induction l₁ with
  | nil => simp
  | cons p l ih =>
    rcases p with ⟨k, v⟩
    cases hk : a == k with
    | true =>
      simp only [List.lookup_cons, hk] at h
      exact Option.noConfusion h
    | false =>
      simp only [List.lookup_cons, hk] at h
      simp only [List.cons_append, List.lookup_cons, hk]
      exact ih h

theorem lookup_isSome_of_mem_keys {l : List (String × Val)} {a : String}
    (h : a ∈ l.map Prod.fst) : (l.lookup a).isSome := by
  induction l with
  | nil => simp at h
  | cons p l ih =>
    rcases p with ⟨k, v⟩
    by_cases hk : a = k
    · subst hk; simp [List.lookup]
    · have : a ∈ l.map Prod.fst := by
        simpa [hk] using h
      simpa [List.lookup, beq_false_of_ne hk] using ih this

theorem lookup_eq_none_of_not_mem_keys {l : List (String × Val)} {a : String}
    (h : a ∉ l.map Prod.fst) : l.lookup a = none := by
  induction l with
  | nil => simp
  | cons p l ih =>
    rcases p with ⟨k, v⟩
    have hk : a ≠ k := by
      intro hak; exact h (by simp [hak])
    have : a ∉ l.map Prod.fst := fun hm => h (by simp [hm])
    simpa [List.lookup, beq_false_of_ne hk] using ih this

/-! ### Lemmas about the default-filling loop -/

theorem fillMissing_extends :
    ∀ (cs : List String) (df d : List (String × Val)),
      fillMissing cs df = some d → ∃ ext, d = df ++ ext := by
  intro cs
  induction cs with
  | nil =>
    intro df d h
    simp [fillMissing] at h
    exact ⟨[], by simp [h]⟩
  | cons c cs ih =>
    intro df d h
    by_cases h1 : (df.lookup c).isSome
    · exact ih df d (by simpa [fillMissing, h1] using h)
    · cases hv : defaults.lookup c with
      | none => simp [fillMissing, h1, hv] at h
      | some v =>
        obtain ⟨ext, hext⟩ := ih (df ++ [(c, v)]) d
          (by simpa [fillMissing, h1, hv] using h)
        exact ⟨(c, v) :: ext, by simp [hext]⟩

theorem fillMissing_isSome :
    ∀ (cs : List String) (df : List (String × Val)),
      (∀ c ∈ cs, (df.lookup c).isSome ∨ (defaults.lookup c).isSome) →
      (fillMissing cs df).isSome := by
  intro cs
  induction cs with
  | nil => intro df _; simp [fillMissing]
  | cons c cs ih =>
    intro df hcov
    by_cases h1 : (df.lookup c).isSome
    · simpa [fillMissing, h1] using
        ih df (fun c' hc' => hcov c' (List.mem_cons_of_mem _ hc'))
    · have hd : (defaults.lookup c).isSome :=
        (hcov c (List.mem_cons_self c cs)).resolve_left h1
      obtain ⟨v, hv⟩ := Option.isSome_iff_exists.mp hd
      have : (fillMissing cs (df ++ [(c, v)])).isSome := by
        apply ih
        intro c' hc'
        rcases hcov c' (List.mem_cons_of_mem _ hc') with h | h
        · exact Or.inl (by rw [lookup_append_of_isSome h]; exact h)
        · exact Or.inr h
      simpa [fillMissing, h1, hv] using this

theorem fillMissing_lookup_of_isSome {cs : List String}
    {df d : List (String × Val)} {a : String}
    (h : fillMissing cs df = some d) (ha : (df.lookup a).isSome) :
    d.lookup a = df.lookup a := by
  obtain ⟨ext, rfl⟩ := fillMissing_extends cs df d h
  exact lookup_append_of_isSome ha

theorem fillMissing_lookup_default :
    ∀ (cs : List String) (df d : List (String × Val)) (a : String),
      fillMissing cs df = some d → a ∈ cs → df.lookup a = none →
      d.lookup a = defaults.lookup a := by
  intro cs
  induction cs with
  | nil => intro df d a _ ha; simp at ha
  | cons c cs ih =>
    intro df d a h ha hnone
    by_cases h1 : (df.lookup c).isSome
    · have hac : a ≠ c := by
        intro hac; rw [hac] at hnone; rw [hnone] at h1; simp at h1
      exact ih df d a (by simpa [fillMissing, h1] using h)
        ((List.mem_cons.mp ha).resolve_left hac) hnone
    · cases hv : defaults.lookup c with
      | none => simp [fillMissing, h1, hv] at h
      | some v =>
        have h' : fillMissing cs (df ++ [(c, v)]) = some d := by
          simpa [fillMissing, h1, hv] using h
        by_cases hac : a = c
        · subst hac
          have hlk : (df ++ [(a, v)]).lookup a = some v := by
            rw [lookup_append_of_none hnone]; simp [List.lookup]
          rw [fillMissing_lookup_of_isSome h' (by simp [hlk]), hlk, hv]
        · have hlk : (df ++ [(c, v)]).lookup a = none := by
            rw [lookup_append_of_none hnone]
            simp [List.lookup, beq_false_of_ne hac]
          exact ih _ d a h' ((List.mem_cons.mp ha).resolve_left hac) hlk

/-! ### Lemmas about column reindexing -/

theorem selectCols_isSome :
    ∀ (cs : List String) (df : List (String × Val)),
      (∀ c ∈ cs, (df.lookup c).isSome) → (selectCols cs df).isSome := by
  intro cs
  induction cs with
  | nil => intro df _; simp [selectCols]
  | cons c cs ih =>
    intro df hcov
    obtain ⟨v, hv⟩ := Option.isSome_iff_exists.mp (hcov c (List.mem_cons_self c cs))
    have := ih df (fun c' hc' => hcov c' (List.mem_cons_of_mem _ hc'))
    obtain ⟨r, hr⟩ := Option.isSome_iff_exists.mp this
    simp [selectCols, hv, hr]

theorem selectCols_keys :
    ∀ (cs : List String) (df : List (String × Val)) (r : List (String × Val)),
      selectCols cs df = some r → r.map Prod.fst = cs := by
  intro cs
  induction cs with
  | nil => intro df r h; simp [selectCols] at h; simp [← h]
  | cons c cs ih =>
    intro df r h
    cases hv : df.lookup c with
    | none => simp [selectCols, hv] at h
    | some v =>
      simp only [selectCols, hv, Option.map_eq_some'] at h
      obtain ⟨r', hr', rfl⟩ := h
      simp [ih df r' hr']

theorem selectCols_lookup :
    ∀ (cs : List String) (df : List (String × Val)) (r : List (String × Val))
      (a : String), selectCols cs df = some r → a ∈ cs →
      r.lookup a = df.lookup a := by
  intro cs
  induction cs with
  | nil => intro df r a _ ha; simp at ha
  | cons c cs ih =>
    intro df r a h ha
    cases hv : df.lookup c with
    | none => simp [selectCols, hv] at h
    | some v =>
      simp only [selectCols, hv, Option.map_eq_some'] at h
      obtain ⟨r', hr', rfl⟩ := h
      by_cases hac : a = c
      · subst hac; simp [List.lookup, hv]
      · simp only [List.lookup_cons, beq_false_of_ne hac]
        exact ih df r' a hr' ((List.mem_cons.mp ha).resolve_left hac)

/-! ### Lemmas about Feature Row construction -/

/-- Every schema column is either user-collected or has a default entry
(`required_cols`, `sixUserFields`, `defaults` from `src/app.py`). -/
theorem schema_covered :
    ∀ c ∈ required_cols, c ∈ sixUserFields ∨ (defaults.lookup c).isSome := by
  decide

theorem buildFeatureRow_isSome {user : List (String × Val)}
    (hcov : ∀ c ∈ required_cols,
      (user.lookup c).isSome ∨ (defaults.lookup c).isSome) :
    (buildFeatureRow user).isSome := by
  obtain ⟨d, hd⟩ := Option.isSome_iff_exists.mp
    (fillMissing_isSome required_cols user hcov)
  have hsel : ∀ c ∈ required_cols, (d.lookup c).isSome := by
    intro c hc
    cases hu : user.lookup c with
    | some v =>
      rw [fillMissing_lookup_of_isSome hd (by simp [hu]), hu]; simp
    | none =>
      rw [fillMissing_lookup_default required_cols user d c hd hc hu]
      exact ((hcov c hc).resolve_left (by simp [hu]))
  obtain ⟨r, hr⟩ := Option.isSome_iff_exists.mp (selectCols_isSome required_cols d hsel)
  simp [buildFeatureRow, hd, hr]

theorem buildFeatureRow_keys {user row : List (String × Val)}
    (h : buildFeatureRow user = some row) :
    row.map Prod.fst = required_cols := by
  rcases hd : fillMissing required_cols user with _ | d
  · rw [buildFeatureRow, hd] at h; exact Option.noConfusion h
  · rw [buildFeatureRow, hd] at h
    exact selectCols_keys required_cols d row h

theorem buildFeatureRow_lookup_user {user row : List (String × Val)}
    {c : String} (h : buildFeatureRow user = some row) (hc : c ∈ required_cols)
    (hu : (user.lookup c).isSome) : row.lookup c = user.lookup c := by
  rcases hd : fillMissing required_cols user with _ | d
  · rw [buildFeatureRow, hd] at h; exact Option.noConfusion h
  · rw [buildFeatureRow, hd] at h
    rw [selectCols_lookup required_cols d row c h hc]
    exact fillMissing_lookup_of_isSome hd hu

theorem buildFeatureRow_lookup_default {user row : List (String × Val)}
    {c : String} (h : buildFeatureRow user = some row) (hc : c ∈ required_cols)
    (hu : user.lookup c = none) : row.lookup c = defaults.lookup c := by
  rcases hd : fillMissing required_cols user with _ | d
  · rw [buildFeatureRow, hd] at h; exact Option.noConfusion h
  · rw [buildFeatureRow, hd] at h
    rw [selectCols_lookup required_cols d row c h hc]
    exact fillMissing_lookup_default required_cols user d c hd hc hu

/-- Coverage holds for any user record whose keys are a permutation of the
six collected fields. -/
theorem userKeys_covered {user : List (String × Val)}
    (hperm : (user.map Prod.fst).Perm sixUserFields) :
    ∀ c ∈ required_cols, (user.lookup c).isSome ∨ (defaults.lookup c).isSome := by
  intro c hc
  rcases schema_covered c hc with h | h
  · exact Or.inl (lookup_isSome_of_mem_keys (hperm.mem_iff.mpr h))
  · exact Or.inr h

/-- Shared helper: the Feature Row built for the spec's example scenario. -/
theorem buildFeatureRow_sample :
    buildFeatureRow (userPairs sampleInput) = some sampleRow := by
  decide

/-! ### Claim theorems -/

/-- C1, counterexample: at the concrete example input, the Feature Row's
columns are `required_cols`, which is *not* equal to the training feature
columns (the dataset columns with the target `G3` removed): the Feature Row
carries the extra column `G3`. -/
theorem C1_cex_row_cols_ne_training_cols :
    (buildFeatureRow (userPairs sampleInput)).map (List.map Prod.fst) =
      some required_cols ∧
    required_cols ≠ trainingFeatureCols ∧
    "G3" ∈ required_cols ∧ "G3" ∉ trainingFeatureCols := by
  refine ⟨?_, by decide, by decide, by decide⟩
  rw [buildFeatureRow_sample]
  simp [buildFeatureRow_keys buildFeatureRow_sample]

/-- C1 (amended): for every prediction request, the set and order of columns
in the Feature Row equals the training feature columns (dataset columns with
`G3` removed) with the extra target column `G3` appended at the end; the
exact match claimed by the spec holds only after dropping `G3` from the
Feature Row. -/
theorem C1_row_cols_eq_training_cols_plus_G3 (user : List (String × Val))
    (hperm : (user.map Prod.fst).Perm sixUserFields) :
    ∃ row, buildFeatureRow user = some row ∧
      row.map Prod.fst = trainingFeatureCols ++ ["G3"] := by
  obtain ⟨row, hrow⟩ :=
    Option.isSome_iff_exists.mp (buildFeatureRow_isSome (userKeys_covered hperm))
  refine ⟨row, hrow, ?_⟩
  rw [buildFeatureRow_keys hrow]
  decide

/-- C1, witness: the amended theorem instantiated at the example input. -/
theorem C1_witness :
    ((userPairs sampleInput).map Prod.fst).Perm sixUserFields ∧
    ∃ row, buildFeatureRow (userPairs sampleInput) = some row ∧
      row.map Prod.fst = trainingFeatureCols ++ ["G3"] :=
  ⟨by decide, C1_row_cols_eq_training_cols_plus_G3 (userPairs sampleInput) (by decide)⟩

/-- C2: for every artifact and every valid six-field user input, the
prediction request succeeds and returns a value in [0, 20] that is an exact
multiple of 1/100, i.e. a value rounded to 2 decimal places
(`max(0, min(20, round(prediction, 2)))`, `src/app.py` line 124). -/
theorem C2_predict_clamped_two_decimals (a : Artifact) (u : UserInput)
    (_hvalid : ValidInput u) :
    ∃ p, appPredict a (userPairs u) = some p ∧
      0 ≤ p ∧ p ≤ 20 ∧ ∃ n : ℤ, p = (n : ℚ) / 100 := by
  have hkeys : ((userPairs u).map Prod.fst).Perm sixUserFields := by
    rw [show (userPairs u).map Prod.fst = sixUserFields from rfl]
  obtain ⟨row, hrow⟩ :=
    Option.isSome_iff_exists.mp (buildFeatureRow_isSome (userKeys_covered hkeys))
  refine ⟨predictChain a row, by simp [appPredict, hrow], le_max_left _ _,
    max_le (by norm_num) (min_le_left _ _), ?_⟩
  show ∃ n : ℤ, max 0 (min 20 (pythonRound2 (a.regPredict (a.transform row)))) =
    (n : ℚ) / 100
  set q := a.regPredict (a.transform row) with hq
  by_cases h1 : pythonRound2 q ≤ 0
  · refine ⟨0, ?_⟩
    rw [max_eq_left (le_trans (min_le_right _ _) h1)]
    norm_num
  · push_neg at h1
    by_cases h2 : pythonRound2 q ≤ 20
    · refine ⟨roundHalfEven (100 * q), ?_⟩
      rw [min_eq_right h2, max_eq_right (le_of_lt h1)]
      rw [pythonRound2]
    · push_neg at h2
      refine ⟨2000, ?_⟩
      rw [min_eq_left (le_of_lt h2), max_eq_right (by norm_num : (0:ℚ) ≤ 20)]
      norm_num

/-- C2, witness: the theorem instantiated at a concrete artifact and the
example input, whose validity is discharged by computation. -/
theorem C2_witness :
    ValidInput sampleInput ∧
    ∃ p, appPredict sampleArtifact (userPairs sampleInput) = some p ∧
      0 ≤ p ∧ p ≤ 20 ∧ ∃ n : ℤ, p = (n : ℚ) / 100 :=
  ⟨⟨Or.inl rfl, Or.inl rfl, by decide, by decide, by decide, by decide,
    by decide, by decide, by decide, by decide⟩,
   C2_predict_clamped_two_decimals sampleArtifact sampleInput
    ⟨Or.inl rfl, Or.inl rfl, by decide, by decide, by decide, by decide,
     by decide, by decide, by decide, by decide⟩⟩

/-- C3: every schema column other than the six user-collected fields has an
entry in the default vector, and consequently building a Feature Row from
any record whose keys are the six user fields never fails and leaves no
column unset. -/
theorem C3_defaults_complete :
    (∀ c ∈ required_cols, c ∉ sixUserFields → (defaults.lookup c).isSome) ∧
    ∀ user : List (String × Val), (user.map Prod.fst).Perm sixUserFields →
      ∃ row, buildFeatureRow user = some row ∧
        ∀ c ∈ required_cols, (row.lookup c).isSome := by
  refine ⟨by decide, ?_⟩
  intro user hperm
  obtain ⟨row, hrow⟩ :=
    Option.isSome_iff_exists.mp (buildFeatureRow_isSome (userKeys_covered hperm))
  refine ⟨row, hrow, ?_⟩
  intro c hc
  have hkeys : c ∈ row.map Prod.fst := by
    rw [buildFeatureRow_keys hrow]; exact hc
  exact lookup_isSome_of_mem_keys hkeys

/-- C3, witness: the completeness facts instantiated at the column `G1` and
the example input. -/
theorem C3_witness :
    (defaults.lookup "G1").isSome ∧
    ∃ row, buildFeatureRow (userPairs sampleInput) = some row ∧
      ∀ c ∈ required_cols, (row.lookup c).isSome :=
  ⟨C3_defaults_complete.1 "G1" (by decide) (by decide),
   C3_defaults_complete.2 (userPairs sampleInput) (by decide)⟩

/-- C4: for any user record whose keys are any permutation of the six user
fields, the Feature Row construction succeeds and the resulting column order
is exactly `required_cols`. -/
theorem C4_row_order_eq_schema_order (user : List (String × Val))
    (hperm : (user.map Prod.fst).Perm sixUserFields) :
    ∃ row, buildFeatureRow user = some row ∧
      row.map Prod.fst = required_cols := by
  obtain ⟨row, hrow⟩ :=
    Option.isSome_iff_exists.mp (buildFeatureRow_isSome (userKeys_covered hperm))
  exact ⟨row, hrow, buildFeatureRow_keys hrow⟩

/-- C4, witness: the theorem instantiated with the six user fields supplied
in reversed order. -/
theorem C4_witness :
    (((userPairs sampleInput).reverse).map Prod.fst).Perm sixUserFields ∧
    ∃ row, buildFeatureRow ((userPairs sampleInput).reverse) = some row ∧
      row.map Prod.fst = required_cols :=
  ⟨by decide, C4_row_order_eq_schema_order ((userPairs sampleInput).reverse) (by decide)⟩

/-- C5, counterexample: the Feature Schema (`required_cols`) has 33 columns,
not 32 as claimed. -/
theorem C5_cex_schema_not_32 : required_cols.length ≠ 32 := by
  decide

/-- C5 (amended): the Feature Schema fixed at training time consists of
exactly 33 columns, of which 17 are categorical (those in
`categorical_cols`) and 16 are numeric/ordinal, the latter including G1, G2
and the target G3 itself. -/
theorem C5_schema_shape :
    required_cols.length = 33 ∧
    (required_cols.filter (fun c => decide (c ∈ categorical_cols))).length = 17 ∧
    (required_cols.filter (fun c => decide (c ∉ categorical_cols))).length = 16 ∧
    "G1" ∈ required_cols.filter (fun c => decide (c ∉ categorical_cols)) ∧
    "G2" ∈ required_cols.filter (fun c => decide (c ∉ categorical_cols)) ∧
    "G3" ∈ required_cols.filter (fun c => decide (c ∉ categorical_cols)) := by
  decide

/-- C6: the inference-time transform-and-predict chain is a pure function of
the loaded artifact and the Feature Row: two calls on an identical artifact
and identical Feature Row return identical values (no hidden randomness). -/
theorem C6_predict_deterministic (a₁ a₂ : Artifact)
    (r₁ r₂ : List (String × Val)) (ha : a₁ = a₂) (hr : r₁ = r₂) :
    predictChain a₁ r₁ = predictChain a₂ r₂ := by
  subst ha; subst hr; rfl

/-- C6, witness: two calls on the same concrete artifact and row. -/
theorem C6_witness :
    sampleArtifact = sampleArtifact ∧ sampleRow = sampleRow ∧
    predictChain sampleArtifact sampleRow = predictChain sampleArtifact sampleRow :=
  ⟨rfl, rfl, C6_predict_deterministic sampleArtifact sampleArtifact
    sampleRow sampleRow rfl rfl⟩

/-- C7: the trainer configures the one-hot preprocessor with
`handle_unknown="ignore"`, and under that configuration a categorical level
not seen at training time is encoded as the all-zero vector rather than an
error. -/
theorem C7_unknown_level_all_zero :
    preprocessConfig.handleUnknown = HandleUnknown.ignore ∧
    ∀ (cats : List String) (v : String), v ∉ cats →
      oneHotEncodeCell preprocessConfig.handleUnknown cats v =
        some (cats.map fun _ => (0 : ℚ)) := by
  refine ⟨rfl, ?_⟩
  intro cats v hv
  simp [oneHotEncodeCell, hv, preprocessConfig]

/-- C7, witness: the level `"XX"`, unseen among the fitted categories of the
`school` column, is encoded as all zeros. -/
theorem C7_witness :
    "XX" ∉ ["GP", "MS"] ∧
    oneHotEncodeCell preprocessConfig.handleUnknown ["GP", "MS"] "XX" =
      some (["GP", "MS"].map fun _ => (0 : ℚ)) :=
  ⟨by decide, C7_unknown_level_all_zero.2 ["GP", "MS"] "XX" (by decide)⟩

/-- C8: the Feature Row is the User Input Record overlaid on the Default
Vector: each of the six user-collected fields holds exactly the
user-supplied value (never a default), and every other schema column holds
its default value. -/
theorem C8_overlay_user_over_defaults (u : UserInput)
    (row : List (String × Val))
    (h : buildFeatureRow (userPairs u) = some row) :
    (row.lookup "school" = some (.str u.school) ∧
     row.lookup "sex" = some (.str u.sex) ∧
     row.lookup "age" = some (.num u.age) ∧
     row.lookup "studytime" = some (.num u.studytime) ∧
     row.lookup "failures" = some (.num u.failures) ∧
     row.lookup "absences" = some (.num u.absences)) ∧
    ∀ c ∈ required_cols, c ∉ sixUserFields →
      row.lookup c = defaults.lookup c := by
  constructor
  · refine ⟨?_, ?_, ?_, ?_, ?_, ?_⟩
    · rw [buildFeatureRow_lookup_user (c := "school") h (by decide) rfl]; rfl
    · rw [buildFeatureRow_lookup_user (c := "sex") h (by decide) rfl]; rfl
    · rw [buildFeatureRow_lookup_user (c := "age") h (by decide) rfl]; rfl
    · rw [buildFeatureRow_lookup_user (c := "studytime") h (by decide) rfl]; rfl
    · rw [buildFeatureRow_lookup_user (c := "failures") h (by decide) rfl]; rfl
    · rw [buildFeatureRow_lookup_user (c := "absences") h (by decide) rfl]; rfl
  · intro c hc hcu
    apply buildFeatureRow_lookup_default h hc
    apply lookup_eq_none_of_not_mem_keys
    rw [show (userPairs u).map Prod.fst = sixUserFields from rfl]
    exact hcu

/-- C8, witness: the overlay property at the example input and its concrete
Feature Row. -/
theorem C8_witness :
    buildFeatureRow (userPairs sampleInput) = some sampleRow ∧
    sampleRow.lookup "age" = some (.num 17) ∧
    ∀ c ∈ required_cols, c ∉ sixUserFields →
      sampleRow.lookup c = defaults.lookup c :=
  ⟨buildFeatureRow_sample,
   (C8_overlay_user_over_defaults sampleInput sampleRow
      buildFeatureRow_sample).1.2.2.1,
   (C8_overlay_user_over_defaults sampleInput sampleRow
      buildFeatureRow_sample).2⟩

/-- C9, counterexample: the two explanation views do not both read the
retained Feature Row.  After a concrete prediction request the session
state retains a Feature Row, the local-attribution view (tab 1) reads it,
but the global-importance view (tab 2) reads no Feature Row at all. -/
theorem C9_cex_global_view_reads_no_row :
    tab1RowSource (predictRequest sampleArtifact (userPairs sampleInput)
        initialSession) = some sampleRow ∧
    tab2RowSource (predictRequest sampleArtifact (userPairs sampleInput)
        initialSession) = none := by
  constructor
  · show (predictRequest sampleArtifact (userPairs sampleInput)
      initialSession).input_df = some sampleRow
    rw [predictRequest, buildFeatureRow_sample]
  · rfl

/-- C9 (amended): the retained session state holds exactly the most recent
Feature Row and its clamped prediction — each new prediction request
overwrites this state regardless of any earlier requests — and the
local-attribution view reads this retained Feature Row, while the
global-importance view reads no Feature Row (it depends only on the loaded
artifact). -/
theorem C9_session_overwrite (a : Artifact)
    (us : List (List (String × Val))) (s₀ : SessionState)
    (user : List (String × Val)) (row : List (String × Val))
    (h : buildFeatureRow user = some row) :
    runRequests a (us ++ [user]) s₀ =
      { input_df := some row, prediction := some (predictChain a row) } ∧
    tab1RowSource (runRequests a (us ++ [user]) s₀) = some row ∧
    tab2RowSource (runRequests a (us ++ [user]) s₀) = none := by
  have hlast : runRequests a (us ++ [user]) s₀ =
      predictRequest a user (runRequests a us s₀) := by
    simp [runRequests, List.foldl_append]
  rw [hlast, predictRequest, h]
  exact ⟨rfl, rfl, rfl⟩

/-- C9, witness: two consecutive requests; the session state ends up holding
exactly the second request's Feature Row and prediction. -/
theorem C9_witness :
    buildFeatureRow (userPairs sampleInput) = some sampleRow ∧
    runRequests sampleArtifact
        [userPairs sampleInput, userPairs sampleInput] initialSession =
      { input_df := some sampleRow,
        prediction := some (predictChain sampleArtifact sampleRow) } ∧
    tab2RowSource (runRequests sampleArtifact
        [userPairs sampleInput, userPairs sampleInput] initialSession) = none :=
  ⟨buildFeatureRow_sample,
   (C9_session_overwrite sampleArtifact [userPairs sampleInput] initialSession
      (userPairs sampleInput) sampleRow buildFeatureRow_sample).1,
   (C9_session_overwrite sampleArtifact [userPairs sampleInput] initialSession
      (userPairs sampleInput) sampleRow buildFeatureRow_sample).2.2⟩

/-- C10: the local-attribution view selects its top 10 entries by descending
absolute SHAP value: `top_shap` is the 10-element prefix of a permutation of
the attribution pairs sorted by descending magnitude, every selected pair is
one of the original (feature, signed value) pairs — so the signed
attributions are what is displayed — and the selection differs from sorting
by signed value on a concrete input. -/
theorem C10_top_shap_by_descending_abs :
    (∀ l : List (String × ℚ),
      (l.mergeSort impactGE).Perm l ∧
      top_shap l ++ (l.mergeSort impactGE).drop 10 = l.mergeSort impactGE ∧
      (top_shap l).Pairwise (fun p q => |q.2| ≤ |p.2|) ∧
      ∀ p ∈ top_shap l, p ∈ l) ∧
    top_shap [("a", (-5 : ℚ)), ("b", 1)] ≠
      topBySignedSpec [("a", (-5 : ℚ)), ("b", 1)] := by
  constructor
  · intro l
    have hsorted : (l.mergeSort impactGE).Pairwise
        (fun p q => |q.2| ≤ |p.2|) := by
      have h := @List.sorted_mergeSort _ impactGE
        (fun a b c hab hbc => by
          simp only [impactGE, decide_eq_true_eq] at *
          exact le_trans hbc hab)
        (fun a b => by
          simp only [impactGE, Bool.or_eq_true, decide_eq_true_eq]
          exact le_total _ _)
        l
      exact h.imp (fun hab => by simpa [impactGE] using hab)
    refine ⟨List.mergeSort_perm l impactGE,
      List.take_append_drop 10 (l.mergeSort impactGE), ?_, ?_⟩
    · exact hsorted.sublist (List.take_sublist 10 _)
    · intro p hp
      exact (List.mergeSort_perm l impactGE).subset (List.mem_of_mem_take hp)
  · simp [top_shap, topBySignedSpec, List.mergeSort, impactGE, List.merge]
    norm_num

/-- C10, witness: the largest-magnitude pair is selected and carries its
original signed value. -/
theorem C10_witness :
    ("a", (-5 : ℚ)) ∈ top_shap [("a", (-5 : ℚ)), ("b", 1)] ∧
    ("a", (-5 : ℚ)) ∈ [("a", (-5 : ℚ)), ("b", 1)] := by
  have hmem : ("a", (-5 : ℚ)) ∈ top_shap [("a", (-5 : ℚ)), ("b", 1)] := by
    have h : top_shap [("a", (-5 : ℚ)), ("b", 1)] = [("a", -5), ("b", 1)] := by
      simp [top_shap, List.mergeSort, impactGE, List.merge]
    rw [h]
    exact List.mem_cons_self _ _
  exact ⟨hmem,
    (C10_top_shap_by_descending_abs.1 [("a", (-5 : ℚ)), ("b", 1)]).2.2.2
      ("a", (-5 : ℚ)) hmem⟩

end StudentML
